import Mathlib

/-!
# Shader pipeline of `OpenGL/OpenGL/src/main.cpp`

A shallow embedding of the three functions that make up the shader pipeline of
the program, `ParseShader`, `CompileShader` and `CreateShader`, together with
the properties of them that the specification states.

* `std::string` is `String`; `std::string::find` is `find`, with `npos` the
  value returned when there is no occurrence.
* The `std::ifstream` read by `ParseShader` is represented by the lines that
  successive `getline` calls deliver.
* The block array `std::stringstream ss[2]` is a pair of strings written
  through an integer subscript; a subscript outside `0..1` has no block, and
  the parse then has no defined result (`none`).
* The graphics library is not part of the program. Its functions act on an
  explicit driver state, in which `glCreateShader` adds a live stage object
  and `glDeleteShader` removes it; what the shader compiler of the driver
  answers for a source is a parameter (`Driver`).
* `CompileShader` and `CreateShader` return the driver state after the call,
  which holds the text written to `std::cout`, and the value returned. A
  variable or buffer that is read before anything was written to it has no
  defined content, and the run then has no defined result (`none`).
-/

namespace OpenGL

/-! ## Strings -/

/-- Position returned by `find` when the pattern does not occur (`std::string::npos`). -/
abbrev npos : Option Nat := none

/-- Search for the first occurrence of `pat` in the characters `s`, the first of which
has index `pos`. -/
def findFrom (pat : List Char) : List Char → Nat → Option Nat
  | [], pos => if pat = [] then some pos else npos
  | c :: cs, pos => if pat <+: c :: cs then some pos else findFrom pat cs (pos + 1)

/-- The call `s.find(pat)` of `std::string`: index of the first occurrence of `pat`
in `s`, or `npos`. -/
def find (s pat : String) : Option Nat :=
  findFrom pat.data s.data 0

/-- The text `s` contains the text `pat` as a substring: the characters of `pat` occur in
`s` as a run of consecutive characters. -/
def containsText (s pat : String) : Prop :=
  pat.data <:+: s.data

instance (s pat : String) : Decidable (containsText s pat) := by
  unfold containsText
  infer_instance

/-! ## ParseShader -/

/-- The `struct ShaderProgramSource`. -/
structure ShaderProgramSource where
  VertexSource : String
  FragmentSource : String
deriving DecidableEq

/-- The local `enum class ShaderType` of `ParseShader`. -/
inductive ShaderType where
  | NONE
  | VERTEX
  | FRAGMENT
deriving DecidableEq

/-- The enumerator values `NONE = -1, VERTEX = 0, FRAGMENT = 1`, as used by the cast
`(int)type`. -/
def ShaderType.toInt : ShaderType → Int
  | ShaderType.NONE => -1
  | ShaderType.VERTEX => 0
  | ShaderType.FRAGMENT => 1

/-- The lines that the calls `getline(stream, line)` deliver from
`std::ifstream stream(filePath)`, one for each turn of the loop: those of the resource
at `filePath`, and none when the resource cannot be opened (`none`), the first `getline`
then failing at once. -/
def streamLines (resource : Option (List String)) : List String :=
  resource.getD []

/-- The statement `ss[i] << text` on the array `std::stringstream ss[2]`. Only the
subscripts `0` and `1` denote an element; any other subscript is out of range and the
statement has no defined effect. -/
def ssWrite (ss : String × String) (i : Int) (text : String) : Option (String × String) :=
  if i = 0 then some (ss.1 ++ text, ss.2)
  else if i = 1 then some (ss.1, ss.2 ++ text)
  else none

/-- The variables of the `while` loop of `ParseShader`: the current stage `type` and the
two blocks `ss[0]`, `ss[1]`. -/
structure ParseState where
  type : ShaderType
  ss : String × String
deriving DecidableEq

/-- One execution of the body of the `while` loop on the line just read. -/
def parseLine (st : ParseState) (line : String) : Option ParseState :=
  if find line "#shader" ≠ npos then
    if find line "vertex" ≠ npos then
      some { st with type := ShaderType.VERTEX }
    else if find line "fragment" ≠ npos then
      some { st with type := ShaderType.FRAGMENT }
    else
      some st
  else
    (ssWrite st.ss st.type.toInt (line ++ "\n")).map fun ss => { st with ss := ss }

/-- The loop `while (getline(stream, line)) { ... }`, run on the lines of the stream. -/
def parseLoop : List String → ParseState → Option ParseState
  | [], st => some st
  | line :: rest, st => (parseLine st line).bind (parseLoop rest)

/-- The state in which the loop is entered: `type = NONE`, both blocks empty. -/
def parseInit : ParseState :=
  ⟨ShaderType.NONE, ("", "")⟩

/-- The function `ParseShader`. The argument is the resource found at `filePath`. The
result is `none` when the run executes an out-of-range subscript on `ss`. -/
def ParseShader (resource : Option (List String)) : Option ShaderProgramSource :=
  (parseLoop (streamLines resource) parseInit).map
    fun st => ⟨st.ss.1, st.ss.2⟩

/-- Each line followed by a newline, concatenated in order. -/
def joinLines : List String → String
  | [] => ""
  | line :: rest => line ++ "\n" ++ joinLines rest

/-! ## Reference routing semantics

The routing of lines to blocks as the specification words it, by position in the
input, for comparison with the loop. -/

/-- The stage chosen by a line: a line that contains `#shader` together with `vertex`
or `fragment` chooses a stage, any other line chooses none. For a line with both keywords
the specification names no stage here; the stage is VERTEX, as `ParseShader` decides. -/
def chosenStage (line : String) : Option ShaderType :=
  if containsText line "#shader" then
    if containsText line "vertex" then some ShaderType.VERTEX
    else if containsText line "fragment" then some ShaderType.FRAGMENT
    else none
  else none

/-- The current stage of a line that comes after the lines `earlier`: the stage chosen by
the most recent of them that chooses one, `NONE` when there is no such line. -/
def currentStage (earlier : List String) : ShaderType :=
  ((earlier.reverse.filterMap chosenStage).head?).getD ShaderType.NONE

/-- The lines of the input routed to stage `t`, in input order: those that do not
contain `#shader` and whose current stage is `t`. -/
def routedLines (t : ShaderType) (lines : List String) : List String :=
  ((List.range lines.length).filter fun i =>
      decide (¬ containsText (lines.getD i "") "#shader"
        ∧ currentStage (lines.take i) = t)).map
    fun i => lines.getD i ""

/-- No line without `#shader` occurs while the current stage is still `NONE`. -/
def stagedInput (lines : List String) : Prop :=
  ∀ i, i < lines.length →
    ¬ containsText (lines.getD i "") "#shader" →
      currentStage (lines.take i) ≠ ShaderType.NONE

instance (lines : List String) : Decidable (stagedInput lines) := by
  unfold stagedInput
  infer_instance

/-! ## The driver

The functions of the graphics library called by `CompileShader` and `CreateShader` are
not part of the program. They are represented by an explicit driver state: the live
stage objects, the live program objects, the calls received so far, and the text
written to `std::cout`. -/

/-- Modelled from the spec: the constant `GL_FALSE`, declared in the header of the
graphics library, which is absent from the sources; the value is that of the library
registry. -/
def GL_FALSE : Nat := 0

/-- Modelled from the spec: the constant `GL_TRUE`, declared in the header of the
graphics library, which is absent from the sources; the value is that of the library
registry. -/
def GL_TRUE : Nat := 1

/-- Modelled from the spec: the constant `GL_FRAGMENT_SHADER`, declared in the header of the
graphics library, which is absent from the sources; the value is that of the library
registry. -/
def GL_FRAGMENT_SHADER : Nat := 0x8B30

/-- Modelled from the spec: the constant `GL_VERTEX_SHADER`, declared in the header of the
graphics library, which is absent from the sources; the value is that of the library
registry. -/
def GL_VERTEX_SHADER : Nat := 0x8B31

/-- Modelled from the spec: the constant `GL_COMPILE_STATUS`, declared in the header of the
graphics library, which is absent from the sources; the value is that of the library
registry. -/
def GL_COMPILE_STATUS : Nat := 0x8B81

/-- Modelled from the spec: the constant `GL_INFO_LOG_LENGTH`, declared in the header of the
graphics library, which is absent from the sources; the value is that of the library
registry. -/
def GL_INFO_LOG_LENGTH : Nat := 0x8B84

/-- The shader compiler of the driver: for a stage kind and a source text, whether the
compilation succeeds and the information log it leaves. -/
structure Driver where
  compiles : Nat → String → Bool
  infoLog : Nat → String → String

/-- A live stage object. -/
structure ShaderObject where
  name : Nat
  type : Nat
  source : String
  compileStatus : Nat
  infoLog : String
deriving DecidableEq

/-- A live program object: the handles attached to it, and whether linking and
validation have been requested. -/
structure ProgramObject where
  name : Nat
  attached : List Nat
  linkRequested : Bool
  validateRequested : Bool
deriving DecidableEq

/-- A call received by the driver, with the handle it returned where it returns one. -/
inductive GLCall where
  | CreateProgram (result : Nat)
  | CreateShader (type result : Nat)
  | ShaderSource (id : Nat) (source : String)
  | CompileShader (id : Nat)
  | GetShaderiv (id pname : Nat)
  | GetShaderInfoLog (id maxLength : Nat)
  | DeleteShader (id : Nat)
  | AttachShader (program shader : Nat)
  | LinkProgram (program : Nat)
  | ValidateProgram (program : Nat)
deriving DecidableEq

/-- The driver state, and the text written to `std::cout`. -/
structure GLState where
  shaders : List ShaderObject
  programs : List ProgramObject
  calls : List GLCall
  cout : String
deriving DecidableEq

/-- The handles of the live stage objects. -/
def GLState.liveShaders (s : GLState) : List Nat :=
  s.shaders.map fun o => o.name

/-- The handles of the live program objects. -/
def GLState.livePrograms (s : GLState) : List Nat :=
  s.programs.map fun o => o.name

/-- A handle that names no live object: one more than the largest handle in use, hence
never zero. -/
def freshName (s : GLState) : Nat :=
  (s.liveShaders ++ s.livePrograms).foldr max 0 + 1

/-- Modelled from the spec: `glCreateProgram`, absent from the sources, creates an empty
program object and returns its non-zero handle. -/
def glCreateProgram (s : GLState) : GLState × Nat :=
  let id := freshName s
  ({ s with programs := s.programs ++ [⟨id, [], false, false⟩],
            calls := s.calls ++ [GLCall.CreateProgram id] }, id)

/-- Modelled from the spec: `glCreateShader`, absent from the sources, adds a live, empty
stage object of the given kind and returns its non-zero handle. -/
def glCreateShader (type : Nat) (s : GLState) : GLState × Nat :=
  let id := freshName s
  ({ s with shaders := s.shaders ++ [⟨id, type, "", GL_FALSE, ""⟩],
            calls := s.calls ++ [GLCall.CreateShader type id] }, id)

/-- Modelled from the spec: `glShaderSource`, absent from the sources, sets the source
text of the stage object `id`. The text is handed over as one C string; the driver is
taken to judge a source by the text it is handed. -/
def glShaderSource (id : Nat) (source : String) (s : GLState) : GLState :=
  { s with shaders := s.shaders.map fun o =>
             if o.name = id then { o with source := source } else o,
           calls := s.calls ++ [GLCall.ShaderSource id source] }

/-- Modelled from the spec: `glCompileShader`, absent from the sources, compiles the source
text of the stage object `id` and stores the compile status and the information log in
the object. -/
def glCompileShader (d : Driver) (id : Nat) (s : GLState) : GLState :=
  { s with shaders := s.shaders.map fun o =>
             if o.name = id then
               { o with compileStatus := if d.compiles o.type o.source then GL_TRUE else GL_FALSE,
                        infoLog := d.infoLog o.type o.source }
             else o,
           calls := s.calls ++ [GLCall.CompileShader id] }

/-- The number of characters of an information log as `GL_INFO_LOG_LENGTH` reports it:
the terminator is counted, and an empty log has length zero. -/
def logLength (log : String) : Nat :=
  if log.data = [] then 0 else log.data.length + 1

/-- Modelled from the spec: `glGetShaderiv`, absent from the sources, writes a parameter of
the stage object `id` to the variable it is given: the compile status, or the number of
characters of the information log including the terminator (zero for an empty log).
The variable, `none` as long as nothing was assigned to it, is left as it is when the
driver knows no such object or parameter. -/
def glGetShaderiv (id pname : Nat) (param : Option Nat) (s : GLState) :
    GLState × Option Nat :=
  let value :=
    match s.shaders.find? fun o => decide (o.name = id) with
    | some o =>
      if pname = GL_COMPILE_STATUS then some o.compileStatus
      else if pname = GL_INFO_LOG_LENGTH then some (logLength o.infoLog)
      else param
    | none => param
  ({ s with calls := s.calls ++ [GLCall.GetShaderiv id pname] }, value)

/-- The buffer `(char*)alloca(length * sizeof(char))`: stack memory to which nothing has
been written yet (`none`). -/
def alloca (_length : Nat) : Option String :=
  none

/-- Modelled from the spec: `glGetShaderInfoLog`, absent from the sources, writes the
information log of the stage object `id` into the buffer, cut to what `maxLength`
characters hold with the terminator. With `maxLength` zero, or for an unknown object,
it writes nothing and the buffer is left as it is. -/
def glGetShaderInfoLog (id maxLength : Nat) (buffer : Option String) (s : GLState) :
    GLState × Option String :=
  let message :=
    match s.shaders.find? fun o => decide (o.name = id) with
    | some o =>
      if maxLength = 0 then buffer
      else some (String.mk (o.infoLog.data.take (maxLength - 1)))
    | none => buffer
  ({ s with calls := s.calls ++ [GLCall.GetShaderInfoLog id maxLength] }, message)

/-- Modelled from the spec: `glDeleteShader`, absent from the sources, releases the stage
object `id`: it is removed from the live stage objects at once, attached to a program or
not. The handle zero is ignored. -/
def glDeleteShader (id : Nat) (s : GLState) : GLState :=
  { s with shaders := if id = 0 then s.shaders
                      else s.shaders.filter fun o => decide (o.name ≠ id),
           calls := s.calls ++ [GLCall.DeleteShader id] }

/-- Modelled from the spec: `glAttachShader`, absent from the sources, attaches a live stage
object to the program object; the handle zero, or a handle that names no live stage
object, is not attached. -/
def glAttachShader (program shader : Nat) (s : GLState) : GLState :=
  { s with programs := s.programs.map fun p =>
             if p.name = program ∧ shader ≠ 0 ∧ shader ∈ s.liveShaders then
               { p with attached := p.attached ++ [shader] }
             else p,
           calls := s.calls ++ [GLCall.AttachShader program shader] }

/-- Modelled from the spec: `glLinkProgram`, absent from the sources, requests linking of
the program object. -/
def glLinkProgram (program : Nat) (s : GLState) : GLState :=
  { s with programs := s.programs.map fun p =>
             if p.name = program then { p with linkRequested := true } else p,
           calls := s.calls ++ [GLCall.LinkProgram program] }

/-- Modelled from the spec: `glValidateProgram`, absent from the sources, requests
validation of the program object. -/
def glValidateProgram (program : Nat) (s : GLState) : GLState :=
  { s with programs := s.programs.map fun p =>
             if p.name = program then { p with validateRequested := true } else p,
           calls := s.calls ++ [GLCall.ValidateProgram program] }

/-- The statement `std::cout << text`. -/
def coutWrite (text : String) (s : GLState) : GLState :=
  { s with cout := s.cout ++ text }

/-- The line end `std::endl`. -/
def endl : String := "\n"

/-! ## CompileShader and CreateShader -/

/-- The expression `type == GL_VERTEX_SHADER ? "vertex" : "fragment"`. -/
def stageName (type : Nat) : String :=
  if type = GL_VERTEX_SHADER then "vertex" else "fragment"

/-- The function `CompileShader`: the driver state after the call and the value returned.
The variables `result` and `length` are declared without a value and `message` points to
fresh stack memory; reading one of them before the driver has written to it has no
defined result (`none`). -/
def CompileShader (d : Driver) (type : Nat) (source : String) (s : GLState) :
    Option (GLState × Nat) :=
  let (s, id) := glCreateShader type s
  let s := glShaderSource id source s
  let s := glCompileShader d id s
  let (s, result) := glGetShaderiv id GL_COMPILE_STATUS none s
  match result with
  | none => none
  | some result =>
    if result = GL_FALSE then
      let (s, length) := glGetShaderiv id GL_INFO_LOG_LENGTH none s
      match length with
      | none => none
      | some length =>
        let (s, message) := glGetShaderInfoLog id length (alloca length) s
        let s := coutWrite ("Failed to compile " ++ stageName type ++ " shader" ++ endl) s
        match message with
        | none => none
        | some message =>
          let s := coutWrite (message ++ endl) s
          let s := glDeleteShader id s
          some (s, 0)
    else
      let s := coutWrite (stageName type ++ " Shader Compiled" ++ endl) s
      some (s, id)

/-- The function `CreateShader`: the driver state after the call and the value returned,
`none` when one of the two runs of `CompileShader` has no defined result. -/
def CreateShader (d : Driver) (vertexShader fragmentShader : String) (s : GLState) :
    Option (GLState × Nat) :=
  let (s, program) := glCreateProgram s
  match CompileShader d GL_VERTEX_SHADER vertexShader s with
  | none => none
  | some (s, vs) =>
    match CompileShader d GL_FRAGMENT_SHADER fragmentShader s with
    | none => none
    | some (s, fs) =>
      let s := glAttachShader program vs s
      let s := glAttachShader program fs s
      let s := coutWrite ("Shaders attached" ++ endl) s
      let s := glLinkProgram program s
      let s := glValidateProgram program s
      let s := coutWrite ("Program Linked and Validated" ++ endl) s
      let s := glDeleteShader vs s
      let s := glDeleteShader fs s
      let s := coutWrite ("Shaders deleted" ++ endl) s
      some (s, program)

/-! ## Reference behaviour of the two functions

What one run of `CompileShader` sends to the driver and writes to the output, for
comparison with the code. -/

/-- The calls that one run of `CompileShader` sends to the driver for the stage object
`id`, whose compilation succeeds (`ok`) or fails leaving a log of `logLength` characters
with its terminator. -/
def compileCalls (type : Nat) (source : String) (id : Nat) (ok : Bool) (logLength : Nat) :
    List GLCall :=
  [GLCall.CreateShader type id, GLCall.ShaderSource id source, GLCall.CompileShader id,
    GLCall.GetShaderiv id GL_COMPILE_STATUS]
  ++ (if ok then []
      else [GLCall.GetShaderiv id GL_INFO_LOG_LENGTH, GLCall.GetShaderInfoLog id logLength,
        GLCall.DeleteShader id])

/-- The text that one run of `CompileShader` writes to the standard output: the line that
reports success, or the line that names the failed stage followed by the log. -/
def compileOutput (type : Nat) (ok : Bool) (log : String) : String :=
  if ok then stageName type ++ " Shader Compiled" ++ "\n"
  else "Failed to compile " ++ stageName type ++ " shader" ++ "\n" ++ (log ++ "\n")

/-- A driver state with one live stage object and one live program object. -/
def sampleState : GLState :=
  ⟨[⟨3, GL_VERTEX_SHADER, "void main();", GL_TRUE, ""⟩], [⟨1, [], false, false⟩], [], ""⟩

/-- A driver whose compiler accepts the source `void main();` alone and leaves, for any
other source, a log that depends on the stage kind. -/
def sampleDriver : Driver :=
  ⟨fun _ source => decide (source = "void main();"),
   fun type source =>
     if source = "void main();" then ""
     else if type = GL_VERTEX_SHADER then "ERROR: 0:1: unexpected end of text"
     else "ERROR: 0:2: undeclared identifier"⟩

/-- A driver whose compiler rejects every source and leaves a log. -/
def strictDriver : Driver :=
  ⟨fun _ _ => false, fun _ _ => "ERROR: 0:1: no entry point"⟩

/-- A driver whose compiler accepts the source `void main();` alone and leaves an empty
information log whatever the source. -/
def silentDriver : Driver :=
  ⟨fun _ source => decide (source = "void main();"), fun _ _ => ""⟩

/-! ## Lemmas on strings -/

theorem findFrom_eq_none_iff (pat s : List Char) (pos : Nat) :
    findFrom pat s pos = none ↔ ¬ pat <:+: s := by
  induction s generalizing pos with
  | nil =>
    by_cases h : pat = []
    · simp [findFrom, h]
    · simp [findFrom, h]
  | cons c cs ih =>
    by_cases h : pat <+: c :: cs
    · simp [findFrom, h, List.infix_cons_iff]
    · simp [findFrom, h, List.infix_cons_iff, ih]

theorem find_eq_npos_iff (s pat : String) : find s pat = npos ↔ ¬ containsText s pat :=
  findFrom_eq_none_iff pat.data s.data 0

theorem containsText_iff (s pat : String) : containsText s pat ↔ find s pat ≠ npos := by
  rw [Ne, find_eq_npos_iff, not_not]

theorem plain_of_not_contains (L : List String) (h : ∀ l ∈ L, ¬ containsText l "#shader") :
    ∀ l ∈ L, find l "#shader" = npos :=
  fun l hl => (find_eq_npos_iff l "#shader").2 (h l hl)

/-! ## Lemmas on the loop -/

theorem parseLoop_append (A B : List String) (st : ParseState) :
    parseLoop (A ++ B) st = (parseLoop A st).bind (parseLoop B) := by
  induction A generalizing st with
  | nil => simp [parseLoop]
  | cons a A ih =>
    simp only [List.cons_append, parseLoop]
    cases h : parseLine st a with
    | none => simp
    | some st1 => simp [ih]

theorem joinLines_append (A B : List String) :
    joinLines (A ++ B) = joinLines A ++ joinLines B := by
  induction A with
  | nil => simp [joinLines]
  | cons a A ih => simp [joinLines, ih, String.append_assoc]

theorem parseLine_plain_vertex (line : String) (v f : String)
    (h : find line "#shader" = npos) :
    parseLine ⟨ShaderType.VERTEX, (v, f)⟩ line
      = some ⟨ShaderType.VERTEX, (v ++ (line ++ "\n"), f)⟩ := by
  simp [parseLine, h, ssWrite, ShaderType.toInt]

theorem parseLine_plain_fragment (line : String) (v f : String)
    (h : find line "#shader" = npos) :
    parseLine ⟨ShaderType.FRAGMENT, (v, f)⟩ line
      = some ⟨ShaderType.FRAGMENT, (v, f ++ (line ++ "\n"))⟩ := by
  simp [parseLine, h, ssWrite, ShaderType.toInt]

theorem parseLoop_plain_vertex (L : List String) (v f : String)
    (h : ∀ l ∈ L, find l "#shader" = npos) :
    parseLoop L ⟨ShaderType.VERTEX, (v, f)⟩
      = some ⟨ShaderType.VERTEX, (v ++ joinLines L, f)⟩ := by
  induction L generalizing v with
  | nil => simp [parseLoop, joinLines]
  | cons a L ih =>
    have ha : find a "#shader" = npos := h a (List.mem_cons_self a L)
    have hL : ∀ l ∈ L, find l "#shader" = npos := fun l hl => h l (List.mem_cons_of_mem a hl)
    simp [parseLoop, parseLine_plain_vertex a v f ha, ih _ hL, joinLines, String.append_assoc]

theorem parseLoop_plain_fragment (L : List String) (v f : String)
    (h : ∀ l ∈ L, find l "#shader" = npos) :
    parseLoop L ⟨ShaderType.FRAGMENT, (v, f)⟩
      = some ⟨ShaderType.FRAGMENT, (v, f ++ joinLines L)⟩ := by
  induction L generalizing f with
  | nil => simp [parseLoop, joinLines]
  | cons a L ih =>
    have ha : find a "#shader" = npos := h a (List.mem_cons_self a L)
    have hL : ∀ l ∈ L, find l "#shader" = npos := fun l hl => h l (List.mem_cons_of_mem a hl)
    simp [parseLoop, parseLine_plain_fragment a v f ha, ih _ hL, joinLines, String.append_assoc]

theorem parseLine_vertex_directive (st : ParseState) :
    parseLine st "#shader vertex" = some { st with type := ShaderType.VERTEX } := by
  have h1 : find "#shader vertex" "#shader" ≠ npos := by decide
  have h2 : find "#shader vertex" "vertex" ≠ npos := by decide
  simp [parseLine, h1, h2]

theorem parseLine_fragment_directive (st : ParseState) :
    parseLine st "#shader fragment" = some { st with type := ShaderType.FRAGMENT } := by
  have h1 : find "#shader fragment" "#shader" ≠ npos := by decide
  have h2 : find "#shader fragment" "vertex" = npos := by decide
  have h3 : find "#shader fragment" "fragment" ≠ npos := by decide
  simp [parseLine, h1, h2, h3]

theorem currentStage_snoc (pre : List String) (l : String) :
    currentStage (pre ++ [l]) = (chosenStage l).getD (currentStage pre) := by
  unfold currentStage
  rw [List.reverse_append]
  cases h : chosenStage l <;> simp [List.filterMap_cons, h]

theorem routedLines_snoc (t : ShaderType) (pre : List String) (l : String) :
    routedLines t (pre ++ [l]) = routedLines t pre ++
      (if ¬ containsText l "#shader" ∧ currentStage pre = t then [l] else []) := by
  have key : ∀ i ∈ List.range pre.length,
      (pre ++ [l]).getD i "" = pre.getD i "" ∧ (pre ++ [l]).take i = pre.take i := by
    intro i hi
    have hlt : i < pre.length := List.mem_range.1 hi
    constructor
    · simp [List.getD_eq_getElem?_getD, List.getElem?_append_left hlt]
    · simp [List.take_append_of_le_length (le_of_lt hlt)]
  unfold routedLines
  rw [List.length_append, List.length_singleton, List.range_succ, List.filter_append,
    List.map_append]
  congr 1
  · have e1 : (List.range pre.length).filter (fun i =>
          decide (¬ containsText ((pre ++ [l]).getD i "") "#shader"
            ∧ currentStage ((pre ++ [l]).take i) = t))
        = (List.range pre.length).filter (fun i =>
          decide (¬ containsText (pre.getD i "") "#shader"
            ∧ currentStage (pre.take i) = t)) := by
      apply List.filter_congr
      intro i hi
      rw [(key i hi).1, (key i hi).2]
    rw [e1]
    apply List.map_congr_left
    intro i hi
    exact (key i (List.mem_filter.1 hi).1).1
  · have g : (pre ++ [l]).getD pre.length "" = l := by
      simp [List.getD_eq_getElem?_getD]
    have tk : (pre ++ [l]).take pre.length = pre := by simp
    by_cases c : ¬ containsText l "#shader" ∧ currentStage pre = t
    · simp only [List.filter_cons, List.filter_nil, g, tk, c, and_self, decide_True, if_true,
        List.map_cons, List.map_nil, not_false_eq_true]
    · simp only [List.filter_cons, List.filter_nil, g, tk, c, decide_False, if_false,
        List.map_nil, Bool.false_eq_true]

theorem stagedInput_front (pre : List String) (l : String) (h : stagedInput (pre ++ [l])) :
    stagedInput pre := by
  intro i hi hnd
  have hi2 : i < (pre ++ [l]).length := by simp; omega
  have e1 : (pre ++ [l]).getD i "" = pre.getD i "" := by
    simp [List.getD_eq_getElem?_getD, List.getElem?_append_left hi]
  have e2 : (pre ++ [l]).take i = pre.take i := by
    simp [List.take_append_of_le_length (le_of_lt hi)]
  have := h i hi2 (by rw [e1]; exact hnd)
  rwa [e2] at this

theorem stagedInput_last (pre : List String) (l : String) (h : stagedInput (pre ++ [l]))
    (hnd : ¬ containsText l "#shader") : currentStage pre ≠ ShaderType.NONE := by
  have hi2 : pre.length < (pre ++ [l]).length := by simp
  have g : (pre ++ [l]).getD pre.length "" = l := by
    simp [List.getD_eq_getElem?_getD]
  have := h pre.length hi2 (by rw [g]; exact hnd)
  simpa using this

theorem parseLine_directive (st : ParseState) (l : String) (h : find l "#shader" ≠ npos) :
    parseLine st l = some { st with type := (chosenStage l).getD st.type } := by
  unfold parseLine chosenStage
  simp only [containsText_iff]
  by_cases h2 : find l "vertex" ≠ npos
  · simp [h, h2]
  · by_cases h3 : find l "fragment" ≠ npos
    · simp [h, h2, h3]
    · simp [h, h2, h3]

theorem chosenStage_plain (l : String) (h : ¬ containsText l "#shader") :
    chosenStage l = none := by
  simp [chosenStage, h]

theorem parseLoop_routed (lines : List String) (h : stagedInput lines) :
    parseLoop lines parseInit = some ⟨currentStage lines,
      (joinLines (routedLines ShaderType.VERTEX lines),
       joinLines (routedLines ShaderType.FRAGMENT lines))⟩ := by
  induction lines using List.reverseRecOn with
  | nil => simp [parseLoop, parseInit, currentStage, routedLines, joinLines]
  | append_singleton pre l ih =>
    rw [parseLoop_append, ih (stagedInput_front pre l h)]
    simp only [Option.some_bind, parseLoop]
    rw [currentStage_snoc, routedLines_snoc, routedLines_snoc]
    by_cases hd : containsText l "#shader"
    · rw [parseLine_directive _ l ((containsText_iff l "#shader").1 hd)]
      simp [hd]
    · have hne := stagedInput_last pre l h hd
      have hf := (find_eq_npos_iff l "#shader").2 hd
      rw [chosenStage_plain l hd]
      cases hc : currentStage pre with
      | NONE => exact absurd hc hne
      | VERTEX =>
        rw [parseLine_plain_vertex l _ _ hf]
        simp [hd, joinLines_append, joinLines]
      | FRAGMENT =>
        rw [parseLine_plain_fragment l _ _ hf]
        simp [hd, joinLines_append, joinLines]

theorem routedLines_plain (t : ShaderType) (lines : List String) :
    ∀ l ∈ routedLines t lines, ¬ containsText l "#shader" := by
  intro l hl
  unfold routedLines at hl
  rcases List.mem_map.1 hl with ⟨i, hi, rfl⟩
  have := (List.mem_filter.1 hi).2
  simp only [decide_eq_true_eq] at this
  exact this.1

/-! ## Properties of ParseShader -/

/-- C1. Round-trip split: when no line of `V` or `F` contains `#shader`, parsing the
lines `#shader vertex`, `V`, `#shader fragment`, `F` returns the lines of `V`, each
followed by a newline, as VertexSource and those of `F` as FragmentSource. -/
theorem ParseShader_round_trip (V F : List String)
    (hV : ∀ l ∈ V, ¬ containsText l "#shader") (hF : ∀ l ∈ F, ¬ containsText l "#shader") :
    ParseShader (some (["#shader vertex"] ++ V ++ ["#shader fragment"] ++ F))
      = some ⟨joinLines V, joinLines F⟩ := by
  have hV := plain_of_not_contains V hV
  have hF := plain_of_not_contains F hF
  simp [ParseShader, streamLines, parseInit, parseLoop, parseLoop_append,
    parseLine_vertex_directive, parseLine_fragment_directive,
    parseLoop_plain_vertex V _ _ hV, parseLoop_plain_fragment F _ _ hF]

theorem ParseShader_round_trip_witness :
    ParseShader (some (["#shader vertex"] ++ ["void main()", "return;"]
        ++ ["#shader fragment"] ++ ["out vec4 color;"]))
      = some ⟨joinLines ["void main()", "return;"], joinLines ["out vec4 color;"]⟩ :=
  ParseShader_round_trip ["void main()", "return;"] ["out vec4 color;"] (by decide)
    (by decide)

/-- C2. Empty-stage property: when no line of `L` contains `#shader`, parsing
`#shader vertex` followed by `L` returns the joined lines of `L` as VertexSource and the
empty string as FragmentSource, and parsing `#shader fragment` followed by `L` returns
the empty string as VertexSource and the joined lines of `L` as FragmentSource. -/
theorem ParseShader_empty_stage (L : List String)
    (hL : ∀ l ∈ L, ¬ containsText l "#shader") :
    ParseShader (some (["#shader vertex"] ++ L)) = some ⟨joinLines L, ""⟩
    ∧ ParseShader (some (["#shader fragment"] ++ L)) = some ⟨"", joinLines L⟩ := by
  have hL := plain_of_not_contains L hL
  constructor
  · simp [ParseShader, streamLines, parseInit, parseLoop, parseLine_vertex_directive,
      parseLoop_plain_vertex L _ _ hL]
  · simp [ParseShader, streamLines, parseInit, parseLoop, parseLine_fragment_directive,
      parseLoop_plain_fragment L _ _ hL]

theorem ParseShader_empty_stage_witness :
    ParseShader (some (["#shader vertex"] ++ ["void main()", "return;"]))
        = some ⟨joinLines ["void main()", "return;"], ""⟩
    ∧ ParseShader (some (["#shader fragment"] ++ ["void main()", "return;"]))
        = some ⟨"", joinLines ["void main()", "return;"]⟩ :=
  ParseShader_empty_stage ["void main()", "return;"] (by decide)

/-- C3. Directive keyword matching: (a) the line `#shader vertex-ish` selects the VERTEX
stage, so the lines after it that do not contain `#shader` all go to VertexSource;
(b) a line that does not contain `#shader` but contains `vertex` or `fragment` leaves the
current stage as it is and is appended, followed by a newline, to the block of the
current stage, and the lines after it still go to that block, as in a fragment section
or a vertex section. -/
theorem ParseShader_keyword_matching (L : List String)
    (hL : ∀ l ∈ L, ¬ containsText l "#shader")
    (line : String) (hline : ¬ containsText line "#shader")
    (_hkw : containsText line "vertex" ∨ containsText line "fragment")
    (v f : String) (A B : List String)
    (hA : ∀ l ∈ A, ¬ containsText l "#shader") (hB : ∀ l ∈ B, ¬ containsText l "#shader") :
    parseLine ⟨ShaderType.FRAGMENT, (v, f)⟩ "#shader vertex-ish"
        = some ⟨ShaderType.VERTEX, (v, f)⟩
    ∧ ParseShader (some (["#shader vertex-ish"] ++ L)) = some ⟨joinLines L, ""⟩
    ∧ parseLine ⟨ShaderType.VERTEX, (v, f)⟩ line
        = some ⟨ShaderType.VERTEX, (v ++ (line ++ "\n"), f)⟩
    ∧ parseLine ⟨ShaderType.FRAGMENT, (v, f)⟩ line
        = some ⟨ShaderType.FRAGMENT, (v, f ++ (line ++ "\n"))⟩
    ∧ ParseShader (some (["#shader fragment"] ++ A ++ [line] ++ B))
        = some ⟨"", joinLines A ++ (line ++ "\n") ++ joinLines B⟩
    ∧ ParseShader (some (["#shader vertex"] ++ A ++ [line] ++ B))
        = some ⟨joinLines A ++ (line ++ "\n") ++ joinLines B, ""⟩ := by
  have hL := plain_of_not_contains L hL
  have hA := plain_of_not_contains A hA
  have hB := plain_of_not_contains B hB
  have hline := (find_eq_npos_iff line "#shader").2 hline
  have h1 : find "#shader vertex-ish" "#shader" ≠ npos := by decide
  have h2 : find "#shader vertex-ish" "vertex" ≠ npos := by decide
  have hish : ∀ st : ParseState,
      parseLine st "#shader vertex-ish" = some { st with type := ShaderType.VERTEX } := by
    intro st
    simp [parseLine, h1, h2]
  have hAlB : ∀ l ∈ A ++ [line] ++ B, find l "#shader" = npos := by
    intro l hl
    simp only [List.mem_append, List.mem_singleton] at hl
    rcases hl with (hl | hl) | hl
    · exact hA l hl
    · rw [hl]; exact hline
    · exact hB l hl
  have hj : joinLines (A ++ [line] ++ B) = joinLines A ++ (line ++ "\n") ++ joinLines B := by
    simp [joinLines_append, joinLines, String.append_assoc]
  refine ⟨hish _, ?_, parseLine_plain_vertex line v f hline,
    parseLine_plain_fragment line v f hline, ?_, ?_⟩
  · simp [ParseShader, streamLines, parseInit, parseLoop, hish,
      parseLoop_plain_vertex L _ _ hL]
  · rw [← hj]
    simp only [List.append_assoc, List.singleton_append] at hAlB ⊢
    simp [ParseShader, streamLines, parseInit, parseLoop, parseLine_fragment_directive,
      parseLoop_plain_fragment _ _ _ hAlB]
  · rw [← hj]
    simp only [List.append_assoc, List.singleton_append] at hAlB ⊢
    simp [ParseShader, streamLines, parseInit, parseLoop, parseLine_vertex_directive,
      parseLoop_plain_vertex _ _ _ hAlB]

theorem ParseShader_keyword_matching_witness :
    parseLine ⟨ShaderType.FRAGMENT, ("a\n", "b\n")⟩ "#shader vertex-ish"
        = some ⟨ShaderType.VERTEX, ("a\n", "b\n")⟩
    ∧ ParseShader (some (["#shader vertex-ish"] ++ ["void main()"]))
        = some ⟨joinLines ["void main()"], ""⟩
    ∧ parseLine ⟨ShaderType.VERTEX, ("a\n", "b\n")⟩ "// per-vertex colour"
        = some ⟨ShaderType.VERTEX, ("a\n" ++ ("// per-vertex colour" ++ "\n"), "b\n")⟩
    ∧ parseLine ⟨ShaderType.FRAGMENT, ("a\n", "b\n")⟩ "// per-vertex colour"
        = some ⟨ShaderType.FRAGMENT, ("a\n", "b\n" ++ ("// per-vertex colour" ++ "\n"))⟩
    ∧ ParseShader (some (["#shader fragment"] ++ ["out vec4 color;"]
          ++ ["// per-vertex colour"] ++ ["void main()"]))
        = some ⟨"", joinLines ["out vec4 color;"] ++ ("// per-vertex colour" ++ "\n")
            ++ joinLines ["void main()"]⟩
    ∧ ParseShader (some (["#shader vertex"] ++ ["out vec4 color;"]
          ++ ["// per-vertex colour"] ++ ["void main()"]))
        = some ⟨joinLines ["out vec4 color;"] ++ ("// per-vertex colour" ++ "\n")
            ++ joinLines ["void main()"], ""⟩ :=
  ParseShader_keyword_matching ["void main()"] (by decide) "// per-vertex colour" (by decide)
    (Or.inl (by decide)) "a\n" "b\n" ["out vec4 color;"] ["void main()"] (by decide)
    (by decide)

/-- C4. Reference routing semantics: for an input in which no line without `#shader`
occurs while the current stage is still NONE, VertexSource is the concatenation, in input
order, of the lines without `#shader` whose current stage is VERTEX, each followed by a
newline, and FragmentSource the same for FRAGMENT, the current stage of a line being the
one chosen by the most recent earlier line with `#shader` and a keyword; no line with
`#shader` is among the lines copied; and sections of the same stage accumulate in the
same block in input order. -/
theorem ParseShader_routing (lines : List String) (h : stagedInput lines)
    (A B C : List String) (hA : ∀ l ∈ A, ¬ containsText l "#shader")
    (hB : ∀ l ∈ B, ¬ containsText l "#shader") (hC : ∀ l ∈ C, ¬ containsText l "#shader") :
    ParseShader (some lines)
        = some ⟨joinLines (routedLines ShaderType.VERTEX lines),
                joinLines (routedLines ShaderType.FRAGMENT lines)⟩
    ∧ (∀ l ∈ routedLines ShaderType.VERTEX lines ++ routedLines ShaderType.FRAGMENT lines,
        ¬ containsText l "#shader")
    ∧ ParseShader (some (["#shader vertex"] ++ A ++ ["#shader fragment"] ++ B
          ++ ["#shader vertex"] ++ C))
        = some ⟨joinLines A ++ joinLines C, joinLines B⟩ := by
  have hA := plain_of_not_contains A hA
  have hB := plain_of_not_contains B hB
  have hC := plain_of_not_contains C hC
  refine ⟨?_, ?_, ?_⟩
  · simp [ParseShader, streamLines, parseLoop_routed lines h]
  · intro l hl
    rcases List.mem_append.1 hl with hl | hl
    · exact routedLines_plain _ _ l hl
    · exact routedLines_plain _ _ l hl
  · simp [ParseShader, streamLines, parseInit, parseLoop, parseLoop_append,
      parseLine_vertex_directive, parseLine_fragment_directive,
      parseLoop_plain_vertex A _ _ hA, parseLoop_plain_fragment B _ _ hB,
      parseLoop_plain_vertex C _ _ hC]

theorem ParseShader_routing_witness :
    ParseShader (some ["#shader vertex", "a", "#shader", "b", "#shader fragment", "c",
        "#shader vertex", "d"])
        = some ⟨joinLines (routedLines ShaderType.VERTEX ["#shader vertex", "a", "#shader",
                  "b", "#shader fragment", "c", "#shader vertex", "d"]),
                joinLines (routedLines ShaderType.FRAGMENT ["#shader vertex", "a", "#shader",
                  "b", "#shader fragment", "c", "#shader vertex", "d"])⟩
    ∧ ParseShader (some (["#shader vertex"] ++ ["a", "b"] ++ ["#shader fragment"] ++ ["c"]
          ++ ["#shader vertex"] ++ ["d"]))
        = some ⟨joinLines ["a", "b"] ++ joinLines ["d"], joinLines ["c"]⟩ :=
  have h := ParseShader_routing ["#shader vertex", "a", "#shader", "b", "#shader fragment",
    "c", "#shader vertex", "d"] (by decide) ["a", "b"] ["c"] ["d"] (by decide) (by decide)
    (by decide)
  ⟨h.1, h.2.2⟩

/-- C5. At an input that has a line without `#shader` before any directive, the loop
writes through the subscript `(int)NONE = -1` of the two-element block array: the parse
has no defined result, whatever follows the line. -/
theorem ParseShader_pre_directive_out_of_range :
    ¬ containsText "// basic shader" "#shader"
    ∧ ShaderType.NONE.toInt = -1
    ∧ ssWrite ("", "") ShaderType.NONE.toInt ("// basic shader" ++ "\n") = none
    ∧ parseLine parseInit "// basic shader" = none
    ∧ ParseShader (some ["// basic shader", "#shader vertex", "void main()"]) = none
    ∧ ParseShader (some ["#shader vertex", "void main()"])
        = some ⟨"void main()\n", ""⟩ := by
  decide

/-- C6, as stated, fails: in the line `#shader fragment vertex` the keyword `fragment`
occurs first, at index 8, before `vertex` at index 17, yet the line selects VERTEX, and
the line after it goes to VertexSource. -/
theorem ParseShader_first_keyword_counterexample :
    find "#shader fragment vertex" "fragment" = some 8
    ∧ find "#shader fragment vertex" "vertex" = some 17
    ∧ parseLine parseInit "#shader fragment vertex" = some ⟨ShaderType.VERTEX, ("", "")⟩
    ∧ ParseShader (some ["#shader fragment vertex", "void main()"])
        = some ⟨"void main()\n", ""⟩ := by
  decide

/-- C6, amended. A line that contains `#shader` and both `vertex` and `fragment` selects
VERTEX whichever keyword occurs first, the test for `vertex` being made first: both
`#shader fragment vertex` and `#shader vertex fragment` select VERTEX. -/
theorem ParseShader_vertex_tested_first (st : ParseState) (line : String)
    (h1 : containsText line "#shader") (h2 : containsText line "vertex")
    (_h3 : containsText line "fragment") :
    parseLine st line = some { st with type := ShaderType.VERTEX }
    ∧ parseLine st "#shader fragment vertex" = some { st with type := ShaderType.VERTEX }
    ∧ parseLine st "#shader vertex fragment" = some { st with type := ShaderType.VERTEX } := by
  have h1 := (containsText_iff line "#shader").1 h1
  have h2 := (containsText_iff line "vertex").1 h2
  have a1 : find "#shader fragment vertex" "#shader" ≠ npos := by decide
  have a2 : find "#shader fragment vertex" "vertex" ≠ npos := by decide
  have b1 : find "#shader vertex fragment" "#shader" ≠ npos := by decide
  have b2 : find "#shader vertex fragment" "vertex" ≠ npos := by decide
  refine ⟨?_, ?_, ?_⟩
  · simp [parseLine, h1, h2]
  · simp [parseLine, a1, a2]
  · simp [parseLine, b1, b2]

theorem ParseShader_vertex_tested_first_witness :
    parseLine ⟨ShaderType.FRAGMENT, ("a\n", "b\n")⟩ "fragment of #shader vertex"
        = some { (⟨ShaderType.FRAGMENT, ("a\n", "b\n")⟩ : ParseState) with
                  type := ShaderType.VERTEX }
    ∧ parseLine ⟨ShaderType.FRAGMENT, ("a\n", "b\n")⟩ "#shader fragment vertex"
        = some { (⟨ShaderType.FRAGMENT, ("a\n", "b\n")⟩ : ParseState) with
                  type := ShaderType.VERTEX }
    ∧ parseLine ⟨ShaderType.FRAGMENT, ("a\n", "b\n")⟩ "#shader vertex fragment"
        = some { (⟨ShaderType.FRAGMENT, ("a\n", "b\n")⟩ : ParseState) with
                  type := ShaderType.VERTEX } :=
  ParseShader_vertex_tested_first ⟨ShaderType.FRAGMENT, ("a\n", "b\n")⟩
    "fragment of #shader vertex" (by decide) (by decide) (by decide)

/-- C7. Unreadable resource: when the resource cannot be opened, or delivers no line,
`ParseShader` returns a value, with VertexSource and FragmentSource both the empty
string; it signals no failure. -/
theorem ParseShader_unreadable :
    ParseShader none = some ⟨"", ""⟩ ∧ ParseShader (some []) = some ⟨"", ""⟩ := by
  decide

/-! ## Lemmas on the driver -/

theorem le_foldr_max (l : List Nat) (x : Nat) (h : x ∈ l) : x ≤ l.foldr max 0 := by
  induction l with
  | nil => cases h
  | cons a l ih =>
    simp only [List.foldr_cons]
    rcases List.mem_cons.1 h with h | h
    · rw [h]; exact le_max_left _ _
    · exact le_trans (ih h) (le_max_right _ _)

theorem shader_lt_freshName (s : GLState) (o : ShaderObject) (h : o ∈ s.shaders) :
    o.name < freshName s := by
  have hm : o.name ∈ s.liveShaders ++ s.livePrograms :=
    List.mem_append_left _ (List.mem_map.2 ⟨o, h, rfl⟩)
  have := le_foldr_max _ _ hm
  unfold freshName
  omega

theorem program_lt_freshName (s : GLState) (p : ProgramObject) (h : p ∈ s.programs) :
    p.name < freshName s := by
  have hm : p.name ∈ s.liveShaders ++ s.livePrograms :=
    List.mem_append_right _ (List.mem_map.2 ⟨p, h, rfl⟩)
  have := le_foldr_max _ _ hm
  unfold freshName
  omega

theorem freshName_ne_zero (s : GLState) : freshName s ≠ 0 := by
  unfold freshName
  omega

theorem freshName_not_live (s : GLState) : freshName s ∉ s.liveShaders := by
  intro hmem
  rcases List.mem_map.1 hmem with ⟨o, ho, hname⟩
  have := shader_lt_freshName s o ho
  omega

theorem map_other (l : List ShaderObject) (id : Nat) (g : ShaderObject → ShaderObject)
    (h : ∀ o ∈ l, o.name ≠ id) :
    l.map (fun o => if o.name = id then g o else o) = l := by
  induction l with
  | nil => rfl
  | cons a l ih =>
    have ha : a.name ≠ id := h a (List.mem_cons_self a l)
    simp [ha, ih (fun o ho => h o (List.mem_cons_of_mem a ho))]

theorem find_other (l : List ShaderObject) (id : Nat) (o : ShaderObject)
    (h : ∀ x ∈ l, x.name ≠ id) (ho : o.name = id) :
    (l ++ [o]).find? (fun x => decide (x.name = id)) = some o := by
  induction l with
  | nil => simp [ho]
  | cons a l ih =>
    have ha : a.name ≠ id := h a (List.mem_cons_self a l)
    simp only [List.cons_append, List.find?_cons, ha, decide_False]
    exact ih (fun x hx => h x (List.mem_cons_of_mem a hx))

theorem filter_other (l : List ShaderObject) (id : Nat) (h : ∀ x ∈ l, x.name ≠ id) :
    l.filter (fun x => decide (x.name ≠ id)) = l := by
  apply List.filter_eq_self.2
  intro x hx
  simpa using h x hx

theorem logLength_eq_zero_iff (log : String) : logLength log = 0 ↔ log = "" := by
  unfold logLength
  by_cases h : log.data = []
  · simp only [h, if_true, true_iff]
    exact String.ext (by simp [h])
  · simp only [h, if_false, Nat.add_one_ne_zero, false_iff]
    intro hl
    exact h (by rw [hl])

theorem take_logLength (log : String) : String.mk (log.data.take (logLength log - 1)) = log := by
  unfold logLength
  by_cases h : log.data = []
  · simp only [h, if_true, Nat.zero_sub, List.take_zero]
    exact String.ext (by simp [h])
  · simp only [h, if_false, Nat.add_sub_cancel, List.take_length]

theorem CompileShader_ok (d : Driver) (type : Nat) (source : String) (s : GLState)
    (h : d.compiles type source = true) :
    CompileShader d type source s =
      some ({ shaders := s.shaders
                ++ [⟨freshName s, type, source, GL_TRUE, d.infoLog type source⟩],
              programs := s.programs,
              calls := s.calls ++ compileCalls type source (freshName s) true 0,
              cout := s.cout ++ (stageName type ++ " Shader Compiled" ++ endl) },
            freshName s) := by
  have hne : ∀ o ∈ s.shaders, o.name ≠ freshName s :=
    fun o ho => Nat.ne_of_lt (shader_lt_freshName s o ho)
  simp [CompileShader, glCreateShader, glShaderSource, glCompileShader, glGetShaderiv,
    coutWrite, compileCalls, map_other _ _ _ hne, find_other _ _ _ hne, h, GL_TRUE, GL_FALSE]

theorem CompileShader_failed (d : Driver) (type : Nat) (source : String) (s : GLState)
    (h : d.compiles type source = false) (hlog : d.infoLog type source ≠ "") :
    CompileShader d type source s =
      some ({ shaders := s.shaders,
              programs := s.programs,
              calls := s.calls ++ compileCalls type source (freshName s) false
                (logLength (d.infoLog type source)),
              cout := s.cout ++ ("Failed to compile " ++ stageName type ++ " shader" ++ endl)
                ++ (d.infoLog type source ++ endl) }, 0) := by
  have hne : ∀ o ∈ s.shaders, o.name ≠ freshName s :=
    fun o ho => Nat.ne_of_lt (shader_lt_freshName s o ho)
  have hz := freshName_ne_zero s
  have ht := take_logLength (d.infoLog type source)
  have hl : logLength (d.infoLog type source) ≠ 0 :=
    fun h0 => hlog ((logLength_eq_zero_iff _).1 h0)
  have hp : GL_INFO_LOG_LENGTH ≠ GL_COMPILE_STATUS := by decide
  have hne2 : ∀ a ∈ s.shaders, ¬a.name = freshName s := hne
  simp [CompileShader, glCreateShader, glShaderSource, glCompileShader, glGetShaderiv,
    glGetShaderInfoLog, glDeleteShader, alloca,
    coutWrite, compileCalls, map_other _ _ _ hne, find_other _ _ _ hne, h, GL_TRUE, GL_FALSE,
    hz, filter_other _ _ hne, List.filter_append, hp, hl, ht]
  exact hne2

theorem CompileShader_silent (d : Driver) (type : Nat) (source : String) (s : GLState)
    (h : d.compiles type source = false) (hlog : d.infoLog type source = "") :
    CompileShader d type source s = none := by
  have hne : ∀ o ∈ s.shaders, o.name ≠ freshName s :=
    fun o ho => Nat.ne_of_lt (shader_lt_freshName s o ho)
  have hl : logLength (d.infoLog type source) = 0 := (logLength_eq_zero_iff _).2 hlog
  have hp : GL_INFO_LOG_LENGTH ≠ GL_COMPILE_STATUS := by decide
  simp [CompileShader, glCreateShader, glShaderSource, glCompileShader, glGetShaderiv,
    glGetShaderInfoLog, alloca,
    coutWrite, map_other _ _ _ hne, find_other _ _ _ hne, h, GL_TRUE, GL_FALSE, hp, hl]

theorem CompileShader_defined (d : Driver) (type : Nat) (source : String) (s : GLState)
    (hlog : d.compiles type source = false → d.infoLog type source ≠ "") :
    CompileShader d type source s =
      some ({ shaders := s.shaders
                ++ (if d.compiles type source
                    then [⟨freshName s, type, source, GL_TRUE, d.infoLog type source⟩]
                    else []),
              programs := s.programs,
              calls := s.calls ++ compileCalls type source (freshName s)
                (d.compiles type source) (logLength (d.infoLog type source)),
              cout := s.cout
                ++ compileOutput type (d.compiles type source) (d.infoLog type source) },
            if d.compiles type source then freshName s else 0) := by
  cases h : d.compiles type source with
  | true =>
    rw [CompileShader_ok d type source s h]
    simp [compileCalls, compileOutput, endl]
  | false =>
    rw [CompileShader_failed d type source s h (hlog h)]
    simp [compileOutput, endl, String.append_assoc]

theorem CompileShader_parts (d : Driver) (type : Nat) (source : String) (s : GLState)
    (hlog : d.compiles type source = false → d.infoLog type source ≠ "") :
    ∃ c : GLState,
      CompileShader d type source s
        = some (c, if d.compiles type source then freshName s else 0)
      ∧ c.shaders = s.shaders
          ++ (if d.compiles type source
              then [⟨freshName s, type, source, GL_TRUE, d.infoLog type source⟩]
              else [])
      ∧ c.programs = s.programs
      ∧ c.calls = s.calls ++ compileCalls type source (freshName s)
          (d.compiles type source) (logLength (d.infoLog type source))
      ∧ c.cout = s.cout
          ++ compileOutput type (d.compiles type source) (d.infoLog type source) :=
  ⟨_, CompileShader_defined d type source s hlog, rfl, rfl, rfl, rfl⟩

theorem map_if_neg {α : Type} (l : List α) (c : α → Prop) [DecidablePred c] (g : α → α)
    (h : ∀ x ∈ l, ¬ c x) : l.map (fun x => if c x then g x else x) = l := by
  induction l with
  | nil => rfl
  | cons a l ih =>
    have ha : ¬ c a := h a (List.mem_cons_self a l)
    simp [ha, ih (fun x hx => h x (List.mem_cons_of_mem a hx))]

theorem map_last_if {α : Type} (l : List α) (x : α) (c : α → Prop) [DecidablePred c]
    (g : α → α) (h : ∀ y ∈ l, ¬ c y) (hx : c x) :
    (l ++ [x]).map (fun y => if c y then g y else y) = l ++ [g x] := by
  rw [List.map_append, map_if_neg l c g h]
  simp [hx]

theorem attach_programs (p x : Nat) (c : GLState) (P : List ProgramObject)
    (np : ProgramObject) (hP : c.programs = P ++ [np]) (hfresh : ∀ q ∈ P, q.name ≠ p)
    (hn : np.name = p) (h0 : x ≠ 0) (hx : x ∈ c.liveShaders) :
    (glAttachShader p x c).programs = P ++ [{ np with attached := np.attached ++ [x] }] := by
  unfold glAttachShader
  simp only [hP]
  exact map_last_if P np (fun q => q.name = p ∧ x ≠ 0 ∧ x ∈ c.liveShaders) _
    (fun q hq hc => hfresh q hq hc.1) ⟨hn, h0, hx⟩

theorem attach_zero (p : Nat) (c : GLState) : (glAttachShader p 0 c).programs = c.programs := by
  unfold glAttachShader
  exact map_if_neg c.programs (fun q => q.name = p ∧ 0 ≠ 0 ∧ 0 ∈ c.liveShaders) _
    (fun q _ hc => hc.2.1 rfl)

theorem attach_stage (p id : Nat) (ok : Bool) (c : GLState) (P : List ProgramObject)
    (np : ProgramObject) (hP : c.programs = P ++ [np]) (hfresh : ∀ q ∈ P, q.name ≠ p)
    (hn : np.name = p) (h0 : id ≠ 0) (hx : ok = true → id ∈ c.liveShaders) :
    (glAttachShader p (if ok then id else 0) c).programs
      = P ++ [{ np with attached := np.attached ++ (if ok then [id] else []) }] := by
  cases ok with
  | true => simpa using attach_programs p id c P np hP hfresh hn h0 (hx rfl)
  | false => simpa [hP] using attach_zero p c

theorem link_programs (p : Nat) (c : GLState) (P : List ProgramObject)
    (np : ProgramObject) (hP : c.programs = P ++ [np]) (hfresh : ∀ q ∈ P, q.name ≠ p)
    (hn : np.name = p) :
    (glLinkProgram p c).programs = P ++ [{ np with linkRequested := true }] := by
  unfold glLinkProgram
  simp only [hP]
  exact map_last_if P np (fun q => q.name = p) _ hfresh hn

theorem validate_programs (p : Nat) (c : GLState) (P : List ProgramObject)
    (np : ProgramObject) (hP : c.programs = P ++ [np]) (hfresh : ∀ q ∈ P, q.name ≠ p)
    (hn : np.name = p) :
    (glValidateProgram p c).programs = P ++ [{ np with validateRequested := true }] := by
  unfold glValidateProgram
  simp only [hP]
  exact map_last_if P np (fun q => q.name = p) _ hfresh hn

theorem CreateShader_of_compiled (d : Driver) (vertexShader fragmentShader : String)
    (s c1 c2 : GLState) (vs fs : Nat)
    (h1 : CompileShader d GL_VERTEX_SHADER vertexShader (glCreateProgram s).1 = some (c1, vs))
    (h2 : CompileShader d GL_FRAGMENT_SHADER fragmentShader c1 = some (c2, fs)) :
    CreateShader d vertexShader fragmentShader s =
      some (coutWrite ("Shaders deleted" ++ endl)
        (glDeleteShader fs (glDeleteShader vs
          (coutWrite ("Program Linked and Validated" ++ endl)
            (glValidateProgram (freshName s) (glLinkProgram (freshName s)
              (coutWrite ("Shaders attached" ++ endl)
                (glAttachShader (freshName s) fs
                  (glAttachShader (freshName s) vs c2)))))))), freshName s) := by
  have hp : glCreateProgram s = ((glCreateProgram s).1, freshName s) := rfl
  unfold CreateShader
  rw [hp]
  simp only [h1, h2]

theorem CreateShader_of_vertex_undefined (d : Driver) (vertexShader fragmentShader : String)
    (s : GLState)
    (h1 : CompileShader d GL_VERTEX_SHADER vertexShader (glCreateProgram s).1 = none) :
    CreateShader d vertexShader fragmentShader s = none := by
  have hp : glCreateProgram s = ((glCreateProgram s).1, freshName s) := rfl
  unfold CreateShader
  rw [hp]
  simp only [h1]

theorem CreateShader_of_fragment_undefined (d : Driver) (vertexShader fragmentShader : String)
    (s c1 : GLState) (vs : Nat)
    (h1 : CompileShader d GL_VERTEX_SHADER vertexShader (glCreateProgram s).1 = some (c1, vs))
    (h2 : CompileShader d GL_FRAGMENT_SHADER fragmentShader c1 = none) :
    CreateShader d vertexShader fragmentShader s = none := by
  have hp : glCreateProgram s = ((glCreateProgram s).1, freshName s) := rfl
  unfold CreateShader
  rw [hp]
  simp only [h1, h2]

theorem GLState_eq (x : GLState) (S : List ShaderObject) (P : List ProgramObject)
    (C : List GLCall) (out : String) (h1 : x.shaders = S) (h2 : x.programs = P)
    (h3 : x.calls = C) (h4 : x.cout = out) : x = ⟨S, P, C, out⟩ := by
  cases x
  simp only [GLState.mk.injEq]
  exact ⟨h1, h2, h3, h4⟩

theorem CreateShader_run (d : Driver) (vertexShader fragmentShader : String) (s : GLState)
    (hvl : d.compiles GL_VERTEX_SHADER vertexShader = false →
      d.infoLog GL_VERTEX_SHADER vertexShader ≠ "")
    (hfl : d.compiles GL_FRAGMENT_SHADER fragmentShader = false →
      d.infoLog GL_FRAGMENT_SHADER fragmentShader ≠ "") :
    ∃ (v f : Nat) (c1 c2 : GLState), v ≠ 0 ∧ f ≠ 0
      ∧ v ∉ s.liveShaders ∧ f ∉ s.liveShaders
      ∧ (d.compiles GL_VERTEX_SHADER vertexShader = true → v ≠ f)
      ∧ CompileShader d GL_VERTEX_SHADER vertexShader (glCreateProgram s).1
          = some (c1, if d.compiles GL_VERTEX_SHADER vertexShader then v else 0)
      ∧ CompileShader d GL_FRAGMENT_SHADER fragmentShader c1
          = some (c2, if d.compiles GL_FRAGMENT_SHADER fragmentShader then f else 0)
      ∧ c2.shaders = s.shaders
          ++ (if d.compiles GL_VERTEX_SHADER vertexShader
              then [⟨v, GL_VERTEX_SHADER, vertexShader, GL_TRUE,
                d.infoLog GL_VERTEX_SHADER vertexShader⟩] else [])
          ++ (if d.compiles GL_FRAGMENT_SHADER fragmentShader
              then [⟨f, GL_FRAGMENT_SHADER, fragmentShader, GL_TRUE,
                d.infoLog GL_FRAGMENT_SHADER fragmentShader⟩] else [])
      ∧ CreateShader d vertexShader fragmentShader s =
        some ({ shaders := s.shaders,
                programs := s.programs
                  ++ [⟨freshName s,
                      (if d.compiles GL_VERTEX_SHADER vertexShader then [v] else [])
                        ++ (if d.compiles GL_FRAGMENT_SHADER fragmentShader then [f] else []),
                      true, true⟩],
                calls := s.calls ++ [GLCall.CreateProgram (freshName s)]
                  ++ compileCalls GL_VERTEX_SHADER vertexShader v
                      (d.compiles GL_VERTEX_SHADER vertexShader)
                      (logLength (d.infoLog GL_VERTEX_SHADER vertexShader))
                  ++ compileCalls GL_FRAGMENT_SHADER fragmentShader f
                      (d.compiles GL_FRAGMENT_SHADER fragmentShader)
                      (logLength (d.infoLog GL_FRAGMENT_SHADER fragmentShader))
                  ++ [GLCall.AttachShader (freshName s)
                        (if d.compiles GL_VERTEX_SHADER vertexShader then v else 0),
                      GLCall.AttachShader (freshName s)
                        (if d.compiles GL_FRAGMENT_SHADER fragmentShader then f else 0),
                      GLCall.LinkProgram (freshName s),
                      GLCall.ValidateProgram (freshName s),
                      GLCall.DeleteShader
                        (if d.compiles GL_VERTEX_SHADER vertexShader then v else 0),
                      GLCall.DeleteShader
                        (if d.compiles GL_FRAGMENT_SHADER fragmentShader then f else 0)],
                cout := s.cout
                  ++ compileOutput GL_VERTEX_SHADER (d.compiles GL_VERTEX_SHADER vertexShader)
                      (d.infoLog GL_VERTEX_SHADER vertexShader)
                  ++ compileOutput GL_FRAGMENT_SHADER
                      (d.compiles GL_FRAGMENT_SHADER fragmentShader)
                      (d.infoLog GL_FRAGMENT_SHADER fragmentShader)
                  ++ "Shaders attached\n" ++ "Program Linked and Validated\n"
                  ++ "Shaders deleted\n" },
              freshName s) := by
  obtain ⟨c1, e1, hc1s, hc1p, hc1c, hc1o⟩ :=
    CompileShader_parts d GL_VERTEX_SHADER vertexShader (glCreateProgram s).1 hvl
  obtain ⟨c2, e2, hc2s, hc2p, hc2c, hc2o⟩ :=
    CompileShader_parts d GL_FRAGMENT_SHADER fragmentShader c1 hfl
  generalize d.compiles GL_VERTEX_SHADER vertexShader = okv at *
  generalize d.infoLog GL_VERTEX_SHADER vertexShader = logv at *
  generalize d.compiles GL_FRAGMENT_SHADER fragmentShader = okf at *
  generalize d.infoLog GL_FRAGMENT_SHADER fragmentShader = logf at *
  have hs1 : (glCreateProgram s).1.shaders = s.shaders := rfl
  have hp1 : (glCreateProgram s).1.programs
      = s.programs ++ [⟨freshName s, [], false, false⟩] := rfl
  have hk1 : (glCreateProgram s).1.calls
      = s.calls ++ [GLCall.CreateProgram (freshName s)] := rfl
  have ho1 : (glCreateProgram s).1.cout = s.cout := rfl
  rw [hs1] at hc1s
  rw [hp1] at hc1p
  rw [hk1] at hc1c
  rw [ho1] at hc1o
  rw [hc1s] at hc2s
  rw [hc1p] at hc2p
  rw [hc1c] at hc2c
  rw [hc1o] at hc2o
  have hoV : ∀ o ∈ s.shaders, o.name ≠ freshName (glCreateProgram s).1 := fun o ho =>
    Nat.ne_of_lt (shader_lt_freshName _ o (hs1 ▸ ho))
  have hoF : ∀ o ∈ s.shaders, o.name ≠ freshName c1 := fun o ho =>
    Nat.ne_of_lt (shader_lt_freshName c1 o (by rw [hc1s]; exact List.mem_append_left _ ho))
  have hvf : okv = true → freshName (glCreateProgram s).1 ≠ freshName c1 := by
    intro hok
    have hmem : (⟨freshName (glCreateProgram s).1, GL_VERTEX_SHADER, vertexShader, GL_TRUE,
        logv⟩ : ShaderObject) ∈ c1.shaders := by
      rw [hc1s, hok]
      simp
    exact Nat.ne_of_lt (shader_lt_freshName c1 _ hmem)
  have hv0 : freshName (glCreateProgram s).1 ≠ 0 := freshName_ne_zero _
  have hf0 : freshName c1 ≠ 0 := freshName_ne_zero _
  generalize freshName (glCreateProgram s).1 = v at *
  generalize freshName c1 = f at *
  have hq : ∀ q ∈ s.programs, q.name ≠ freshName s :=
    fun q hq => Nat.ne_of_lt (program_lt_freshName s q hq)
  have hnotV : v ∉ s.liveShaders := by
    intro hmem
    rcases List.mem_map.1 hmem with ⟨o, ho, hname⟩
    exact hoV o ho hname
  have hnotF : f ∉ s.liveShaders := by
    intro hmem
    rcases List.mem_map.1 hmem with ⟨o, ho, hname⟩
    exact hoF o ho hname
  refine ⟨v, f, c1, c2, hv0, hf0, hnotV, hnotF, hvf, e1, e2, hc2s, ?_⟩
  rw [CreateShader_of_compiled d vertexShader fragmentShader s c1 c2 _ _ e1 e2]
  refine congrArg (fun st => some (st, freshName s)) (GLState_eq _ _ _ _ _ ?_ ?_ ?_ ?_)
  · show (glDeleteShader (if okf = true then f else 0)
      (glDeleteShader (if okv = true then v else 0) c2)).shaders = s.shaders
    have hoV2 : ∀ a ∈ s.shaders, ¬a.name = v := hoV
    have hoF2 : ∀ a ∈ s.shaders, ¬a.name = f := hoF
    cases okv <;> cases okf <;>
      simp [glDeleteShader, hc2s, hv0, hf0, List.filter_append, filter_other _ _ hoV,
        filter_other _ _ hoF]
    · exact hoF2
    · exact hoV2
    · exact fun a ha => ⟨hoF a ha, hoV a ha⟩
  · have hvl2 : okv = true → v ∈ c2.liveShaders := by
      intro hok
      simp [GLState.liveShaders, hc2s, hok]
    have hfl2 : okf = true →
        f ∈ (glAttachShader (freshName s) (if okv = true then v else 0) c2).liveShaders := by
      intro hok
      show f ∈ c2.liveShaders
      simp [GLState.liveShaders, hc2s, hok]
    have a1 := attach_stage (freshName s) v okv c2 s.programs _ hc2p hq rfl hv0 hvl2
    have a2 := attach_stage (freshName s) f okf _ s.programs _ a1 hq rfl hf0 hfl2
    have a3 := link_programs (freshName s) _ s.programs _ a2 hq rfl
    have a4 := validate_programs (freshName s) _ s.programs _ a3 hq rfl
    simpa using a4
  · simp [coutWrite, glDeleteShader, glValidateProgram, glLinkProgram, glAttachShader, hc2c]
  · simp [coutWrite, glDeleteShader, glValidateProgram, glLinkProgram, glAttachShader, hc2o,
      endl, String.append_assoc]

theorem CreateShader_silent_vertex (d : Driver) (vertexShader fragmentShader : String)
    (s : GLState) (h : d.compiles GL_VERTEX_SHADER vertexShader = false)
    (hlog : d.infoLog GL_VERTEX_SHADER vertexShader = "") :
    CreateShader d vertexShader fragmentShader s = none :=
  CreateShader_of_vertex_undefined d vertexShader fragmentShader s
    (CompileShader_silent d GL_VERTEX_SHADER vertexShader _ h hlog)

theorem CreateShader_silent_fragment (d : Driver) (vertexShader fragmentShader : String)
    (s : GLState)
    (hv : d.compiles GL_VERTEX_SHADER vertexShader = false →
      d.infoLog GL_VERTEX_SHADER vertexShader ≠ "")
    (h : d.compiles GL_FRAGMENT_SHADER fragmentShader = false)
    (hlog : d.infoLog GL_FRAGMENT_SHADER fragmentShader = "") :
    CreateShader d vertexShader fragmentShader s = none := by
  obtain ⟨c1, e1, _⟩ :=
    CompileShader_parts d GL_VERTEX_SHADER vertexShader (glCreateProgram s).1 hv
  exact CreateShader_of_fragment_undefined d vertexShader fragmentShader s c1 _ e1
    (CompileShader_silent d GL_FRAGMENT_SHADER fragmentShader c1 h hlog)

/-! ## Properties of CompileShader and CreateShader -/

/-- C8, as stated, fails. The value `CompileShader` returns for a failed compilation is
the handle 0 whatever the stage kind and the log, which are only written to the output;
and for a driver that reports GL_FALSE and leaves an empty log there is no non-empty
diagnostic: the log has length zero, nothing is written to the buffer `message`, and the
run, which reads it, has no defined result. -/
theorem CompileShader_failure_counterexample :
    sampleDriver.compiles GL_VERTEX_SHADER "void main(" = false
    ∧ sampleDriver.compiles GL_FRAGMENT_SHADER "void main(" = false
    ∧ sampleDriver.infoLog GL_VERTEX_SHADER "void main("
        ≠ sampleDriver.infoLog GL_FRAGMENT_SHADER "void main("
    ∧ (CompileShader sampleDriver GL_VERTEX_SHADER "void main(" sampleState).map Prod.snd
        = some 0
    ∧ (CompileShader sampleDriver GL_FRAGMENT_SHADER "void main(" sampleState).map Prod.snd
        = some 0
    ∧ silentDriver.compiles GL_VERTEX_SHADER "void main(" = false
    ∧ silentDriver.infoLog GL_VERTEX_SHADER "void main(" = ""
    ∧ logLength (silentDriver.infoLog GL_VERTEX_SHADER "void main(") = 0
    ∧ CompileShader silentDriver GL_VERTEX_SHADER "void main(" sampleState = none := by
  decide

/-- C8, amended. For a stage kind, vertex or fragment, and a source for which the driver
reports GL_FALSE and leaves a non-empty information log, `CompileShader` returns the
handle 0, having written to the standard output a line naming the correct stage kind and
then that log, and the stage object it created is released: the live stage objects
after the call are those before it. For a source for which the driver reports success it
returns the non-zero handle of the stage object it created, which is live and new. -/
theorem CompileShader_failure_logged (d : Driver) (type : Nat)
    (hkind : type = GL_VERTEX_SHADER ∨ type = GL_FRAGMENT_SHADER)
    (source : String) (s : GLState) :
    (d.compiles type source = false → d.infoLog type source ≠ "" →
      CompileShader d type source s
        = some ({ shaders := s.shaders,
                  programs := s.programs,
                  calls := s.calls ++ [GLCall.CreateShader type (freshName s),
                    GLCall.ShaderSource (freshName s) source,
                    GLCall.CompileShader (freshName s),
                    GLCall.GetShaderiv (freshName s) GL_COMPILE_STATUS,
                    GLCall.GetShaderiv (freshName s) GL_INFO_LOG_LENGTH,
                    GLCall.GetShaderInfoLog (freshName s) (logLength (d.infoLog type source)),
                    GLCall.DeleteShader (freshName s)],
                  cout := s.cout ++ ("Failed to compile " ++ stageName type ++ " shader" ++ "\n")
                    ++ (d.infoLog type source ++ "\n") }, 0))
    ∧ (d.compiles type source = true →
      CompileShader d type source s
        = some ({ shaders := s.shaders
                    ++ [⟨freshName s, type, source, GL_TRUE, d.infoLog type source⟩],
                  programs := s.programs,
                  calls := s.calls ++ [GLCall.CreateShader type (freshName s),
                    GLCall.ShaderSource (freshName s) source,
                    GLCall.CompileShader (freshName s),
                    GLCall.GetShaderiv (freshName s) GL_COMPILE_STATUS],
                  cout := s.cout ++ (stageName type ++ " Shader Compiled" ++ "\n") },
                freshName s))
    ∧ freshName s ≠ 0
    ∧ freshName s ∉ s.liveShaders
    ∧ (stageName type = "vertex" ↔ type = GL_VERTEX_SHADER)
    ∧ (stageName type = "fragment" ↔ type = GL_FRAGMENT_SHADER) := by
  have hv : GL_VERTEX_SHADER ≠ GL_FRAGMENT_SHADER := by decide
  refine ⟨?_, ?_, freshName_ne_zero s, freshName_not_live s, ?_, ?_⟩
  · intro hbad hlog
    rw [CompileShader_failed d type source s hbad hlog]
    simp [compileCalls, endl]
  · intro hgood
    rw [CompileShader_ok d type source s hgood]
    simp [compileCalls, endl]
  · rcases hkind with h | h <;> simp [stageName, h, hv.symm, hv]
  · rcases hkind with h | h <;> simp [stageName, h, hv.symm, hv]

theorem CompileShader_failure_logged_witness :
    CompileShader strictDriver GL_FRAGMENT_SHADER "void main(" sampleState
        = some (⟨sampleState.shaders, sampleState.programs,
            [GLCall.CreateShader GL_FRAGMENT_SHADER 4, GLCall.ShaderSource 4 "void main(",
              GLCall.CompileShader 4, GLCall.GetShaderiv 4 GL_COMPILE_STATUS,
              GLCall.GetShaderiv 4 GL_INFO_LOG_LENGTH, GLCall.GetShaderInfoLog 4 27,
              GLCall.DeleteShader 4],
            "Failed to compile fragment shader\nERROR: 0:1: no entry point\n"⟩, 0)
    ∧ CompileShader sampleDriver GL_VERTEX_SHADER "void main();" sampleState
        = some (⟨sampleState.shaders ++ [⟨4, GL_VERTEX_SHADER, "void main();", GL_TRUE, ""⟩],
            sampleState.programs,
            [GLCall.CreateShader GL_VERTEX_SHADER 4, GLCall.ShaderSource 4 "void main();",
              GLCall.CompileShader 4, GLCall.GetShaderiv 4 GL_COMPILE_STATUS],
            "vertex Shader Compiled\n"⟩, 4) := by
  have hbad := (CompileShader_failure_logged strictDriver GL_FRAGMENT_SHADER (Or.inr rfl)
    "void main(" sampleState).1 (by decide) (by decide)
  have hgood := (CompileShader_failure_logged sampleDriver GL_VERTEX_SHADER (Or.inl rfl)
    "void main();" sampleState).2.1 (by decide)
  refine ⟨?_, ?_⟩
  · rw [hbad]
    decide
  · rw [hgood]
    decide

/-- C10. No dangling stage handles: when both sources compile, after `CreateShader`
returns the two stage objects it created, which were attached to the program, are no
longer live, the live stage objects and their number are those before the call, and the
program object whose handle is returned is live. -/
theorem CreateShader_releases_stages (d : Driver) (vertexShader fragmentShader : String)
    (s : GLState) (hv : d.compiles GL_VERTEX_SHADER vertexShader = true)
    (hf : d.compiles GL_FRAGMENT_SHADER fragmentShader = true) :
    ∃ out : GLState × Nat, CreateShader d vertexShader fragmentShader s = some out
      ∧ out.1.shaders = s.shaders
      ∧ out.1.liveShaders = s.liveShaders
      ∧ out.1.liveShaders.length = s.liveShaders.length
      ∧ out.2 ∈ out.1.livePrograms
      ∧ out.2 = (glCreateProgram s).2
      ∧ ∃ (c1 c2 : GLState) (vs fs : Nat), vs ≠ 0 ∧ fs ≠ 0 ∧ vs ≠ fs
          ∧ CompileShader d GL_VERTEX_SHADER vertexShader (glCreateProgram s).1 = some (c1, vs)
          ∧ CompileShader d GL_FRAGMENT_SHADER fragmentShader c1 = some (c2, fs)
          ∧ vs ∈ c2.liveShaders
          ∧ fs ∈ c2.liveShaders
          ∧ vs ∉ out.1.liveShaders
          ∧ fs ∉ out.1.liveShaders
          ∧ out.1.programs = s.programs ++ [⟨out.2, [vs, fs], true, true⟩] := by
  obtain ⟨v, f, c1, c2, hv0, hf0, hnv, hnf, hvf, e1, e2, hc2, hrun⟩ :=
    CreateShader_run d vertexShader fragmentShader s
      (fun h => by rw [hv] at h; cases h) (fun h => by rw [hf] at h; cases h)
  simp only [hv, hf, if_true] at e1 e2 hc2 hrun
  refine ⟨_, hrun, rfl, rfl, rfl, ?_, rfl, c1, c2, v, f, hv0, hf0, hvf hv, e1, e2, ?_, ?_,
    hnv, hnf, rfl⟩
  · simp [GLState.livePrograms]
  · simp [GLState.liveShaders, hc2]
  · simp [GLState.liveShaders, hc2]

theorem CreateShader_releases_stages_witness :
    (CreateShader sampleDriver "void main();" "void main();" sampleState).map
        (fun out => (out.1.shaders, out.1.liveShaders.length, out.2))
      = some (sampleState.shaders, 1, 4) := by
  obtain ⟨out, hout, hs, _, hlen, _, hret, _⟩ :=
    CreateShader_releases_stages sampleDriver "void main();" "void main();" sampleState
      (by decide) (by decide)
  rw [hout, Option.map_some', hs, hlen, hret]
  decide

end OpenGL
